import Mathlib

/-!
Verification of the 2D heat-diffusion simulator
(`calculo_disipacion_calor.py`, class `DifusionCalor2D`).

Shallow embedding choices:
* temperatures are rationals (`ℚ`), standing in for float64 arithmetic;
* a grid is a total function `ℕ → ℕ → ℚ`; the numpy in-place edge writes
  `matriz[0, :] = v` etc. become bounded functional updates (`setRow`,
  `setCol`) that only touch indices below `n`, applied in source order;
* the engine object is a record `DifusionCalor2D` with fields `cfg`, `dt`,
  `r`, `u`, `iteracion`, mirroring `__init__`;
* the run loop `ejecutar` returns the final state together with the list of
  iteration counters at which `renderizar_terminal` was invoked.
-/

/-- Grids: an N×N numpy array embedded as a total function on naturals;
only indices below `n` are ever read or written by the operations below. -/
abbrev Grid := ℕ → ℕ → ℚ

/-- `ConfiguracionSimulacion`: the frozen dataclass, defaults included. -/
structure ConfiguracionSimulacion where
  n : ℕ := 20
  alpha : ℚ := 1
  dx : ℚ := 1
  pasos : ℕ := 500
  cada_render : ℕ := 5
  pausa : ℚ := 3 / 100
  factor_seguridad_cfl : ℚ := 95 / 100
  t_arriba : ℚ := 100
  t_abajo : ℚ := 0
  t_izquierda : ℚ := 30
  t_derecha : ℚ := 30
  deriving DecidableEq

/-- `matriz[i0, :] = v` on an n×n array: overwrite row `i0` (columns `< n`). -/
def setRow (n : ℕ) (m : Grid) (i0 : ℕ) (v : ℚ) : Grid :=
  fun i j => if i = i0 ∧ j < n then v else m i j

/-- `matriz[:, j0] = v` on an n×n array: overwrite column `j0` (rows `< n`). -/
def setCol (n : ℕ) (m : Grid) (j0 : ℕ) (v : ℚ) : Grid :=
  fun i j => if j = j0 ∧ i < n then v else m i j

/-- `_aplicar_contornos`: the four edge writes in source order —
top row, bottom row, left column, right column (later writes win). -/
def aplicar_contornos (cfg : ConfiguracionSimulacion) (matriz : Grid) : Grid :=
  setCol cfg.n
    (setCol cfg.n
      (setRow cfg.n
        (setRow cfg.n matriz 0 cfg.t_arriba)
        (cfg.n - 1) cfg.t_abajo)
      0 cfg.t_izquierda)
    (cfg.n - 1) cfg.t_derecha

/-- `inicializar_placa`: `np.zeros((n, n))` followed by `_aplicar_contornos`. -/
def inicializar_placa (cfg : ConfiguracionSimulacion) : Grid :=
  aplicar_contornos cfg (fun _ _ => 0)

/-- `_calcular_dt_estable`: `dt_max = dx**2 / (4.0 * alpha)`, scaled by the
CFL safety factor. -/
def ConfiguracionSimulacion.calcular_dt_estable (cfg : ConfiguracionSimulacion) : ℚ :=
  cfg.factor_seguridad_cfl * (cfg.dx ^ 2 / (4 * cfg.alpha))

/-- The vectorised interior update
`u_new[1:-1, 1:-1] = u[1:-1, 1:-1] + r * (u[2:, 1:-1] + u[:-2, 1:-1] +
u[1:-1, 2:] + u[1:-1, :-2] - 4 * u[1:-1, 1:-1])` acting on the copy `u_new`:
interior cells (indices `1 .. n-2` in both axes) get the stencil value read
from the old grid `u`; all other cells keep their copied value. -/
def actualizar_interior (n : ℕ) (r : ℚ) (u : Grid) : Grid :=
  fun i j =>
    if 1 ≤ i ∧ i ≤ n - 2 ∧ 1 ≤ j ∧ j ≤ n - 2 then
      u i j + r * (u (i + 1) j + u (i - 1) j + u i (j + 1) + u i (j - 1) - 4 * u i j)
    else u i j

/-- The engine state: configuration, derived scalars `dt` and `r`, the grid
`u`, and the iteration counter. -/
structure DifusionCalor2D where
  cfg : ConfiguracionSimulacion
  dt : ℚ
  r : ℚ
  u : Grid
  iteracion : ℕ

/-- `__init__`: compute `dt`, derive `r = alpha * dt / dx**2`, build the
initial plate, start the counter at 0. -/
def DifusionCalor2D.init (cfg : ConfiguracionSimulacion) : DifusionCalor2D :=
  let dt := cfg.calcular_dt_estable
  { cfg := cfg
    dt := dt
    r := cfg.alpha * dt / cfg.dx ^ 2
    u := inicializar_placa cfg
    iteracion := 0 }

/-- `actualizar_paso`: copy the grid, overwrite the interior with the stencil
values read from the old grid, reapply the boundary conditions, swap the grid
in, and increment the iteration counter. -/
def DifusionCalor2D.actualizar_paso (s : DifusionCalor2D) : DifusionCalor2D :=
  { s with
    u := aplicar_contornos s.cfg (actualizar_interior s.cfg.n s.r s.u)
    iteracion := s.iteracion + 1 }

/-- `k` successive calls of `actualizar_paso`. -/
def pasoIter (s : DifusionCalor2D) (k : ℕ) : DifusionCalor2D :=
  DifusionCalor2D.actualizar_paso^[k] s

/-- The normalised level computed by `_bloque_por_temperatura`:
0 when `t_max <= t_min`, otherwise `np.clip((temp - t_min) / (t_max - t_min), 0, 1)`
(`np.clip x lo hi = min (max x lo) hi`). -/
def nivel_por_temperatura (temp t_min t_max : ℚ) : ℚ :=
  if t_max ≤ t_min then 0
  else min (max ((temp - t_min) / (t_max - t_min)) 0) 1

/-- The options recognised by the argparse CLI in `parsear_argumentos`, with
their declared defaults. The parser declares no option for any of the four
boundary temperatures. -/
structure Args where
  n : ℤ := 20
  alpha : ℚ := 1
  dx : ℚ := 1
  pasos : ℤ := 500
  cada_render : ℤ := 5
  pausa : ℚ := 3 / 100
  factor_seguridad_cfl : ℚ := 95 / 100
  deriving DecidableEq

/-- `parsear_argumentos`: validate the parsed options and build the
configuration. The `ConfiguracionSimulacion(...)` call in the source passes
only the seven parsed options, so the boundary-temperature fields keep their
dataclass defaults. -/
def parsear_argumentos (args : Args) : Except String ConfiguracionSimulacion :=
  if args.n < 3 then .error "N debe ser >= 3 para tener interior de la placa."
  else if args.alpha ≤ 0 then .error "alpha debe ser > 0."
  else if args.dx ≤ 0 then .error "dx debe ser > 0."
  else if args.pasos ≤ 0 then .error "pasos debe ser > 0."
  else if args.cada_render ≤ 0 then .error "cada-render debe ser > 0."
  else if ¬ (0 < args.factor_seguridad_cfl ∧ args.factor_seguridad_cfl ≤ 1) then
    .error "factor-cfl debe estar en el rango (0, 1]."
  else
    .ok { n := args.n.toNat
          alpha := args.alpha
          dx := args.dx
          pasos := args.pasos.toNat
          cada_render := args.cada_render.toNat
          pausa := args.pausa
          factor_seguridad_cfl := args.factor_seguridad_cfl }

/-- The boundary shape of a grid: row 0 holds the top temperature, row `n-1`
the bottom, column 0 the left, column `n-1` the right, with the corners (and
any overlaps) resolved by the column-last write order of
`aplicar_contornos`. -/
def contornos_correctos (cfg : ConfiguracionSimulacion) (u : Grid) : Prop :=
  ∀ i < cfg.n, ∀ j < cfg.n,
    (j = cfg.n - 1 → u i j = cfg.t_derecha) ∧
    (j = 0 → j ≠ cfg.n - 1 → u i j = cfg.t_izquierda) ∧
    (i = cfg.n - 1 → j ≠ 0 → j ≠ cfg.n - 1 → u i j = cfg.t_abajo) ∧
    (i = 0 → i ≠ cfg.n - 1 → j ≠ 0 → j ≠ cfg.n - 1 → u i j = cfg.t_arriba)

/-- The render condition tested after each step of the loop in `ejecutar`:
`self.iteracion % self.cfg.cada_render == 0 or self.iteracion == 1`. -/
def renderCond (cada_render m : ℕ) : Bool :=
  m % cada_render == 0 || m == 1

/-- The iteration numbers in `a+1 .. a+k` that satisfy the render
condition: the renders performed by `k` loop bodies started at iteration
counter `a`. -/
def renderLog (cada_render a k : ℕ) : List ℕ :=
  ((List.range k).map (fun t => a + t + 1)).filter (renderCond cada_render)

/-- `k` remaining executions of the body of the `for` loop in `ejecutar`:
advance one step, then render (log the new iteration number) when the render
condition holds. -/
def ejecutarAux (cada_render : ℕ) : ℕ → DifusionCalor2D × List ℕ → DifusionCalor2D × List ℕ
  | 0, sl => sl
  | k + 1, (s, log) =>
    ejecutarAux cada_render k
      (s.actualizar_paso,
       if renderCond cada_render s.actualizar_paso.iteracion then
         log ++ [s.actualizar_paso.iteracion]
       else log)

/-- `ejecutar`: run the loop body `pasos` times, then render once more
unconditionally. Rendering is modelled by logging the iteration counter at
each `renderizar_terminal` call; the result is the final state together with
that log. -/
def DifusionCalor2D.ejecutar (s : DifusionCalor2D) : DifusionCalor2D × List ℕ :=
  let sl := ejecutarAux s.cfg.cada_render s.cfg.pasos (s, [])
  (sl.1, sl.2 ++ [sl.1.iteracion])

/-- The sum of the interior cells (indices `1 .. n-2` in both axes) of an
n×n grid. -/
def suma_interior (cfg : ConfiguracionSimulacion) (u : Grid) : ℚ :=
  ∑ i ∈ Finset.Icc 1 (cfg.n - 2), ∑ j ∈ Finset.Icc 1 (cfg.n - 2), u i j

/-- The mean of the interior cells of an n×n grid. -/
def media_interior (cfg : ConfiguracionSimulacion) (u : Grid) : ℚ :=
  suma_interior cfg u / (((cfg.n - 2) * (cfg.n - 2) : ℕ) : ℚ)

/-- A tiny concrete configuration (N = 3, α = 1, dx = 1, safety factor 1)
used to instantiate the theorems on a computable example. -/
def cfg3 : ConfiguracionSimulacion :=
  { n := 3, alpha := 1, dx := 1, factor_seguridad_cfl := 1 }

/-- The configuration of the spec's run-loop example: 10 total steps with a
render every 5 iterations. -/
def cfg10 : ConfiguracionSimulacion :=
  { pasos := 10, cada_render := 5 }

/-- C7: `applyBoundaries` (aplicar_contornos) is idempotent: for every grid
and every configuration, applying it twice in succession yields exactly the
same grid as applying it once. -/
theorem aplicar_contornos_idempotente (cfg : ConfiguracionSimulacion) (m : Grid) :
    aplicar_contornos cfg (aplicar_contornos cfg m) = aplicar_contornos cfg m := by
  funext i j
  simp only [aplicar_contornos, setRow, setCol]
  split_ifs <;> rfl

/-- C8: after `aplicar_contornos` runs (top row, bottom row, left column,
right column, in that order) the corners `(0,0)` and `(n-1,0)` hold the left
boundary temperature and the corners `(0,n-1)` and `(n-1,n-1)` hold the right
boundary temperature: the column assignments, which run last, win. -/
theorem aplicar_contornos_esquinas (cfg : ConfiguracionSimulacion) (m : Grid)
    (hn : 2 ≤ cfg.n) :
    aplicar_contornos cfg m 0 0 = cfg.t_izquierda ∧
    aplicar_contornos cfg m (cfg.n - 1) 0 = cfg.t_izquierda ∧
    aplicar_contornos cfg m 0 (cfg.n - 1) = cfg.t_derecha ∧
    aplicar_contornos cfg m (cfg.n - 1) (cfg.n - 1) = cfg.t_derecha := by
  simp only [aplicar_contornos, setRow, setCol]
  refine ⟨?_, ?_, ?_, ?_⟩ <;> split_ifs <;>
    first | rfl | omega | (simp_all only [true_and]; omega)

theorem aplicar_contornos_esquinas_witness :
    aplicar_contornos {} (fun _ _ => 7) 0 0 = 30 ∧
    aplicar_contornos {} (fun _ _ => 7) 19 0 = 30 ∧
    aplicar_contornos {} (fun _ _ => 7) 0 19 = 30 ∧
    aplicar_contornos {} (fun _ _ => 7) 19 19 = 30 :=
  aplicar_contornos_esquinas {} (fun _ _ => 7) (by decide)

/-- C9: the per-cell level computation of the renderer is total and never
divides by zero: when `t_max ≤ t_min` the level is 0, otherwise it is the
normalised value clamped to `[0, 1]`; in every case it lies in `[0, 1]`. -/
theorem nivel_total_en_rango (temp t_min t_max : ℚ) :
    (t_max ≤ t_min → nivel_por_temperatura temp t_min t_max = 0) ∧
    (t_min < t_max →
      nivel_por_temperatura temp t_min t_max =
        min (max ((temp - t_min) / (t_max - t_min)) 0) 1) ∧
    0 ≤ nivel_por_temperatura temp t_min t_max ∧
    nivel_por_temperatura temp t_min t_max ≤ 1 := by
  unfold nivel_por_temperatura
  split_ifs with h
  · exact ⟨fun _ => rfl, fun hlt => absurd h (not_le.mpr hlt), le_refl 0, by norm_num⟩
  · refine ⟨fun hle => absurd hle h, fun _ => rfl, ?_, ?_⟩
    · exact le_min (le_max_right _ 0) (by norm_num)
    · exact min_le_right _ 1

theorem nivel_total_en_rango_witness :
    0 ≤ nivel_por_temperatura 5 0 10 ∧ nivel_por_temperatura 5 0 10 ≤ 1 :=
  ⟨(nivel_total_en_rango 5 0 10).2.2.1, (nivel_total_en_rango 5 0 10).2.2.2⟩

/-- C10: one call to `actualizar_paso` changes only the grid and the
iteration counter: the configuration and the derived scalars `dt` and `r`
are exactly the same after the call as before. -/
theorem actualizar_paso_frame (s : DifusionCalor2D) :
    s.actualizar_paso.cfg = s.cfg ∧
    s.actualizar_paso.dt = s.dt ∧
    s.actualizar_paso.r = s.r :=
  ⟨rfl, rfl, rfl⟩

/-- C2: with `α > 0`, `dx > 0` and safety factor `s ∈ (0,1]`, the engine's
timestep equals `s · dx² / (4α)` and the diffusion number
`r = α · dt / dx²` satisfies `0 < r ≤ s/4 ≤ 1/4`. -/
theorem dt_estable_r_bounds (cfg : ConfiguracionSimulacion)
    (ha : 0 < cfg.alpha) (hdx : 0 < cfg.dx)
    (hs0 : 0 < cfg.factor_seguridad_cfl) (hs1 : cfg.factor_seguridad_cfl ≤ 1) :
    (DifusionCalor2D.init cfg).dt = cfg.factor_seguridad_cfl * cfg.dx ^ 2 / (4 * cfg.alpha) ∧
    0 < (DifusionCalor2D.init cfg).r ∧
    (DifusionCalor2D.init cfg).r ≤ cfg.factor_seguridad_cfl / 4 ∧
    cfg.factor_seguridad_cfl / 4 ≤ 1 / 4 := by
  have ha' : cfg.alpha ≠ 0 := ne_of_gt ha
  have hdx' : cfg.dx ≠ 0 := ne_of_gt hdx
  have hr : (DifusionCalor2D.init cfg).r = cfg.factor_seguridad_cfl / 4 := by
    show cfg.alpha * cfg.calcular_dt_estable / cfg.dx ^ 2 = _
    unfold ConfiguracionSimulacion.calcular_dt_estable
    field_simp
    ring
  refine ⟨?_, ?_, ?_, ?_⟩
  · show cfg.calcular_dt_estable = _
    unfold ConfiguracionSimulacion.calcular_dt_estable
    field_simp
  · rw [hr]; positivity
  · rw [hr]
  · linarith

theorem dt_estable_r_bounds_witness :
    (DifusionCalor2D.init {}).dt = (95 : ℚ) / 100 * 1 ^ 2 / (4 * 1) ∧
    0 < (DifusionCalor2D.init {}).r ∧
    (DifusionCalor2D.init {}).r ≤ (95 : ℚ) / 100 / 4 ∧
    (95 : ℚ) / 100 / 4 ≤ 1 / 4 :=
  dt_estable_r_bounds {} (by norm_num) (by norm_num) (by norm_num) (by norm_num)

lemma aplicar_contornos_interior (cfg : ConfiguracionSimulacion) (m : Grid) (i j : ℕ)
    (hi0 : i ≠ 0) (hi1 : i ≠ cfg.n - 1) (hj0 : j ≠ 0) (hj1 : j ≠ cfg.n - 1) :
    aplicar_contornos cfg m i j = m i j := by
  simp only [aplicar_contornos, setRow, setCol]
  split_ifs <;> first | rfl | omega

/-- C1: one call of `actualizar_paso` on a state with `N ≥ 3` gives every
interior cell the five-point stencil value read entirely from the pre-step
grid `s.u` (so no interior cell's new value can influence another cell's new
value within the same step), and increments the iteration counter by 1. -/
theorem actualizar_paso_interior_spec (s : DifusionCalor2D) (i j : ℕ)
    (hn : 3 ≤ s.cfg.n)
    (hi1 : 1 ≤ i) (hi2 : i ≤ s.cfg.n - 2) (hj1 : 1 ≤ j) (hj2 : j ≤ s.cfg.n - 2) :
    s.actualizar_paso.u i j =
      s.u i j + s.r * (s.u (i + 1) j + s.u (i - 1) j + s.u i (j + 1) + s.u i (j - 1)
        - 4 * s.u i j) ∧
    s.actualizar_paso.iteracion = s.iteracion + 1 := by
  constructor
  · show aplicar_contornos s.cfg (actualizar_interior s.cfg.n s.r s.u) i j = _
    rw [aplicar_contornos_interior s.cfg _ i j (by omega) (by omega) (by omega) (by omega)]
    unfold actualizar_interior
    rw [if_pos ⟨hi1, hi2, hj1, hj2⟩]
  · rfl

theorem actualizar_paso_interior_spec_witness :
    (DifusionCalor2D.init cfg3).actualizar_paso.u 1 1 =
      (DifusionCalor2D.init cfg3).u 1 1 +
        (DifusionCalor2D.init cfg3).r *
          ((DifusionCalor2D.init cfg3).u 2 1 + (DifusionCalor2D.init cfg3).u 0 1 +
            (DifusionCalor2D.init cfg3).u 1 2 + (DifusionCalor2D.init cfg3).u 1 0 -
            4 * (DifusionCalor2D.init cfg3).u 1 1) ∧
    (DifusionCalor2D.init cfg3).actualizar_paso.iteracion =
      (DifusionCalor2D.init cfg3).iteracion + 1 :=
  actualizar_paso_interior_spec (DifusionCalor2D.init cfg3) 1 1
    (by decide) (by decide) (by decide) (by decide) (by decide)

/-- C6 counterexample: no CLI invocation can produce a configuration whose
top boundary temperature is 50 (or anything other than the hardcoded 100):
the argparse parser recognises no boundary-temperature option at all. -/
theorem cli_sin_temperaturas_counterexample :
    ¬ ∃ (a : Args) (cfg : ConfiguracionSimulacion),
        parsear_argumentos a = .ok cfg ∧ cfg.t_arriba = 50 := by
  rintro ⟨a, cfg, hok, h50⟩
  unfold parsear_argumentos at hok
  split_ifs at hok
  all_goals first
    | exact Except.noConfusion hok
    | (injection hok with h; subst h; simp at h50)

/-- C6 (amended): the configuration input recognises only the seven options
n, alpha, dx, pasos, cada_render, pausa and factor_seguridad_cfl, and every
successfully parsed configuration carries those supplied values together
with the fixed default boundary temperatures top = 100, bottom = 0,
left = 30, right = 30; the boundary temperatures are not configurable. -/
theorem cli_temperaturas_por_defecto (a : Args) (cfg : ConfiguracionSimulacion)
    (hok : parsear_argumentos a = .ok cfg) :
    cfg.t_arriba = 100 ∧ cfg.t_abajo = 0 ∧ cfg.t_izquierda = 30 ∧ cfg.t_derecha = 30 ∧
    cfg.n = a.n.toNat ∧ cfg.alpha = a.alpha ∧ cfg.dx = a.dx ∧
    cfg.pasos = a.pasos.toNat ∧ cfg.cada_render = a.cada_render.toNat ∧
    cfg.pausa = a.pausa ∧ cfg.factor_seguridad_cfl = a.factor_seguridad_cfl := by
  unfold parsear_argumentos at hok
  split_ifs at hok
  all_goals first
    | exact Except.noConfusion hok
    | (injection hok with h; subst h;
       exact ⟨rfl, rfl, rfl, rfl, rfl, rfl, rfl, rfl, rfl, rfl, rfl⟩)

theorem cli_temperaturas_por_defecto_witness :
    ({} : ConfiguracionSimulacion).t_arriba = 100 ∧
    ({} : ConfiguracionSimulacion).t_abajo = 0 ∧
    ({} : ConfiguracionSimulacion).t_izquierda = 30 ∧
    ({} : ConfiguracionSimulacion).t_derecha = 30 ∧
    ({} : ConfiguracionSimulacion).n = 20 ∧
    ({} : ConfiguracionSimulacion).alpha = 1 ∧
    ({} : ConfiguracionSimulacion).dx = 1 ∧
    ({} : ConfiguracionSimulacion).pasos = 500 ∧
    ({} : ConfiguracionSimulacion).cada_render = 5 ∧
    ({} : ConfiguracionSimulacion).pausa = 3 / 100 ∧
    ({} : ConfiguracionSimulacion).factor_seguridad_cfl = 95 / 100 :=
  cli_temperaturas_por_defecto {} {} (by norm_num [parsear_argumentos]; decide)

lemma contornos_correctos_aplicar (cfg : ConfiguracionSimulacion) (m : Grid) :
    contornos_correctos cfg (aplicar_contornos cfg m) := by
  intro i hi j hj
  refine ⟨?_, ?_, ?_, ?_⟩ <;> intros <;>
    (simp only [aplicar_contornos, setRow, setCol];
     split_ifs <;> first | rfl | omega)

lemma pasoIter_succ (s : DifusionCalor2D) (k : ℕ) :
    pasoIter s (k + 1) = (pasoIter s k).actualizar_paso :=
  Function.iterate_succ_apply' _ _ _

lemma pasoIter_cfg (s : DifusionCalor2D) (k : ℕ) : (pasoIter s k).cfg = s.cfg := by
  induction k with
  | zero => rfl
  | succ k ih => rw [pasoIter_succ]; exact ih

lemma pasoIter_r (s : DifusionCalor2D) (k : ℕ) : (pasoIter s k).r = s.r := by
  induction k with
  | zero => rfl
  | succ k ih => rw [pasoIter_succ]; exact ih

lemma pasoIter_u_succ (s : DifusionCalor2D) (k : ℕ) :
    (pasoIter s (k + 1)).u =
      aplicar_contornos s.cfg (actualizar_interior s.cfg.n s.r (pasoIter s k).u) := by
  rw [pasoIter_succ]
  show aplicar_contornos (pasoIter s k).cfg
      (actualizar_interior (pasoIter s k).cfg.n (pasoIter s k).r (pasoIter s k).u) = _
  rw [pasoIter_cfg, pasoIter_r]

lemma contornos_pasoIter (cfg : ConfiguracionSimulacion) (k : ℕ) :
    contornos_correctos cfg (pasoIter (DifusionCalor2D.init cfg) k).u := by
  cases k with
  | zero => exact contornos_correctos_aplicar cfg (fun _ _ => 0)
  | succ k => rw [pasoIter_u_succ]; exact contornos_correctos_aplicar cfg _

lemma init_interior_cero (cfg : ConfiguracionSimulacion) (i j : ℕ) (hn : 3 ≤ cfg.n)
    (hi1 : 1 ≤ i) (hi2 : i ≤ cfg.n - 2) (hj1 : 1 ≤ j) (hj2 : j ≤ cfg.n - 2) :
    (DifusionCalor2D.init cfg).u i j = 0 := by
  show aplicar_contornos cfg (fun _ _ => 0) i j = 0
  rw [aplicar_contornos_interior cfg _ i j (by omega) (by omega) (by omega) (by omega)]

/-- C3: for a valid configuration (`N ≥ 3`) the initial plate has every
interior cell equal to 0, and after any number of steps (including 0) the
grid still carries the configured boundary temperatures on row 0, row `N-1`,
column 0 and column `N-1` (corners per the column-last rule): diffusion
never changes a boundary cell. -/
theorem inicializar_y_contornos_invariante (cfg : ConfiguracionSimulacion)
    (hn : 3 ≤ cfg.n) (k : ℕ) :
    (∀ i j : ℕ, 1 ≤ i → i ≤ cfg.n - 2 → 1 ≤ j → j ≤ cfg.n - 2 →
      (DifusionCalor2D.init cfg).u i j = 0) ∧
    contornos_correctos cfg (pasoIter (DifusionCalor2D.init cfg) k).u :=
  ⟨fun i j hi1 hi2 hj1 hj2 => init_interior_cero cfg i j hn hi1 hi2 hj1 hj2,
   contornos_pasoIter cfg k⟩

theorem inicializar_y_contornos_invariante_witness :
    (DifusionCalor2D.init cfg3).u 1 1 = 0 ∧
    contornos_correctos cfg3 (pasoIter (DifusionCalor2D.init cfg3) 2).u :=
  ⟨(inicializar_y_contornos_invariante cfg3 (by decide) 2).1 1 1
      (by decide) (by decide) (by decide) (by decide),
   (inicializar_y_contornos_invariante cfg3 (by decide) 2).2⟩

lemma pasoIter_iteracion (s : DifusionCalor2D) (k : ℕ) :
    (pasoIter s k).iteracion = s.iteracion + k := by
  induction k with
  | zero => rfl
  | succ k ih =>
    rw [pasoIter_succ]
    show (pasoIter s k).iteracion + 1 = s.iteracion + (k + 1)
    omega

lemma renderLog_succ (cada_render a k : ℕ) :
    renderLog cada_render a (k + 1) =
      (if renderCond cada_render (a + 1) then [a + 1] else []) ++
        renderLog cada_render (a + 1) k := by
  unfold renderLog
  rw [List.range_succ_eq_map, List.map_cons, List.map_map, List.filter_cons]
  have hmap : ((fun t => a + t + 1) ∘ Nat.succ) = fun t => a + 1 + t + 1 := by
    funext t
    simp only [Function.comp_apply]
    omega
  rw [hmap]
  by_cases h : renderCond cada_render (a + 0 + 1)
  · rw [if_pos h]
    have h' : renderCond cada_render (a + 1) = true := by simpa using h
    rw [if_pos h']
    simp
  · rw [if_neg h]
    have h' : ¬ renderCond cada_render (a + 1) = true := by simpa using h
    rw [if_neg h']
    simp

lemma ejecutarAux_spec (cada_render k : ℕ) :
    ∀ (s : DifusionCalor2D) (log : List ℕ),
      ejecutarAux cada_render k (s, log) =
        (pasoIter s k, log ++ renderLog cada_render s.iteracion k) := by
  induction k with
  | zero => intro s log; simp [ejecutarAux, pasoIter, renderLog]
  | succ k ih =>
    intro s log
    rw [show ejecutarAux cada_render (k + 1) (s, log) =
          ejecutarAux cada_render k
            (s.actualizar_paso,
             if renderCond cada_render s.actualizar_paso.iteracion then
               log ++ [s.actualizar_paso.iteracion]
             else log) from rfl]
    rw [ih]
    have hit : s.actualizar_paso.iteracion = s.iteracion + 1 := rfl
    rw [hit, renderLog_succ]
    simp only [Prod.mk.injEq]
    refine ⟨?_, ?_⟩
    · show pasoIter s.actualizar_paso k = pasoIter s (k + 1)
      simp [pasoIter, Function.iterate_succ_apply]
    · split_ifs <;> simp

/-- C5: starting from a fresh engine, `ejecutar` calls `actualizar_paso`
exactly `pasos` times (the final state is the `pasos`-fold step of the
initial one and its counter reads `pasos`), renders exactly at the
iterations `k ∈ 1..pasos` with `k % cada_render = 0` or `k = 1`, and then
always renders once more after the loop, even when iteration `pasos` already
triggered a periodic render. -/
theorem ejecutar_render_schedule (cfg : ConfiguracionSimulacion)
    (_hp : 0 < cfg.pasos) (_hr : 0 < cfg.cada_render) :
    (DifusionCalor2D.init cfg).ejecutar.1 = pasoIter (DifusionCalor2D.init cfg) cfg.pasos ∧
    (DifusionCalor2D.init cfg).ejecutar.1.iteracion = cfg.pasos ∧
    (DifusionCalor2D.init cfg).ejecutar.2 =
      ((List.range cfg.pasos).map (fun t => t + 1)).filter (renderCond cfg.cada_render)
        ++ [cfg.pasos] := by
  have h := ejecutarAux_spec cfg.cada_render cfg.pasos (DifusionCalor2D.init cfg) []
  have hinitit : (DifusionCalor2D.init cfg).iteracion = 0 := rfl
  have hlog : renderLog cfg.cada_render 0 cfg.pasos =
      ((List.range cfg.pasos).map (fun t => t + 1)).filter (renderCond cfg.cada_render) := by
    unfold renderLog
    simp only [Nat.zero_add]
  simp only [DifusionCalor2D.ejecutar,
    show (DifusionCalor2D.init cfg).cfg = cfg from rfl]
  rw [h, hinitit, hlog]
  refine ⟨rfl, ?_, ?_⟩
  · show (pasoIter (DifusionCalor2D.init cfg) cfg.pasos).iteracion = cfg.pasos
    rw [pasoIter_iteracion, hinitit]
    omega
  · show [] ++ _ ++ [(pasoIter (DifusionCalor2D.init cfg) cfg.pasos).iteracion] = _
    rw [pasoIter_iteracion, hinitit]
    simp

theorem ejecutar_render_schedule_witness :
    (DifusionCalor2D.init cfg10).ejecutar.1.iteracion = 10 ∧
    (DifusionCalor2D.init cfg10).ejecutar.2 = [1, 5, 10, 10] := by
  have h := ejecutar_render_schedule cfg10 (by decide) (by decide)
  refine ⟨h.2.1, ?_⟩
  rw [h.2.2]
  decide

lemma aplicar_contornos_valores (cfg : ConfiguracionSimulacion) (m : Grid) (i j : ℕ) :
    aplicar_contornos cfg m i j = m i j ∨
    aplicar_contornos cfg m i j = cfg.t_arriba ∨
    aplicar_contornos cfg m i j = cfg.t_abajo ∨
    aplicar_contornos cfg m i j = cfg.t_izquierda ∨
    aplicar_contornos cfg m i j = cfg.t_derecha := by
  simp only [aplicar_contornos, setRow, setCol]
  split_ifs <;> tauto

lemma actualizar_interior_bounds (n : ℕ) (r : ℚ) (u : Grid) (lo hi : ℚ)
    (hr0 : 0 ≤ r) (hr1 : 4 * r ≤ 1)
    (hu : ∀ i < n, ∀ j < n, lo ≤ u i j ∧ u i j ≤ hi)
    (i j : ℕ) (hin : i < n) (hjn : j < n) :
    lo ≤ actualizar_interior n r u i j ∧ actualizar_interior n r u i j ≤ hi := by
  unfold actualizar_interior
  split_ifs with h
  · obtain ⟨h1, h2, h3, h4⟩ := h
    have hA := hu (i + 1) (by omega) j hjn
    have hB := hu (i - 1) (by omega) j hjn
    have hC := hu i hin (j + 1) (by omega)
    have hD := hu i hin (j - 1) (by omega)
    have h0 := hu i hin j hjn
    constructor
    · nlinarith [mul_nonneg hr0 (sub_nonneg.mpr hA.1), mul_nonneg hr0 (sub_nonneg.mpr hB.1),
        mul_nonneg hr0 (sub_nonneg.mpr hC.1), mul_nonneg hr0 (sub_nonneg.mpr hD.1),
        mul_nonneg (by linarith : (0:ℚ) ≤ 1 - 4 * r) (sub_nonneg.mpr h0.1)]
    · nlinarith [mul_nonneg hr0 (sub_nonneg.mpr hA.2), mul_nonneg hr0 (sub_nonneg.mpr hB.2),
        mul_nonneg hr0 (sub_nonneg.mpr hC.2), mul_nonneg hr0 (sub_nonneg.mpr hD.2),
        mul_nonneg (by linarith : (0:ℚ) ≤ 1 - 4 * r) (sub_nonneg.mpr h0.2)]
  · exact hu i hin j hjn

lemma paso_grid_bounds (cfg : ConfiguracionSimulacion) (r : ℚ) (u : Grid)
    (ht1 : cfg.t_arriba = 100) (ht2 : cfg.t_abajo = 0)
    (ht3 : cfg.t_izquierda = 30) (ht4 : cfg.t_derecha = 30)
    (hr0 : 0 ≤ r) (hr1 : 4 * r ≤ 1)
    (hu : ∀ i < cfg.n, ∀ j < cfg.n, 0 ≤ u i j ∧ u i j ≤ 100)
    (i j : ℕ) (hi : i < cfg.n) (hj : j < cfg.n) :
    0 ≤ aplicar_contornos cfg (actualizar_interior cfg.n r u) i j ∧
    aplicar_contornos cfg (actualizar_interior cfg.n r u) i j ≤ 100 := by
  rcases aplicar_contornos_valores cfg (actualizar_interior cfg.n r u) i j with
    h | h | h | h | h <;> rw [h]
  · exact actualizar_interior_bounds cfg.n r u 0 100 hr0 hr1 hu i j hi hj
  · rw [ht1]; norm_num
  · rw [ht2]; norm_num
  · rw [ht3]; norm_num
  · rw [ht4]; norm_num

lemma init_bounds (cfg : ConfiguracionSimulacion)
    (ht1 : cfg.t_arriba = 100) (ht2 : cfg.t_abajo = 0)
    (ht3 : cfg.t_izquierda = 30) (ht4 : cfg.t_derecha = 30)
    (i j : ℕ) :
    0 ≤ (DifusionCalor2D.init cfg).u i j ∧ (DifusionCalor2D.init cfg).u i j ≤ 100 := by
  show 0 ≤ aplicar_contornos cfg (fun _ _ => 0) i j ∧
    aplicar_contornos cfg (fun _ _ => 0) i j ≤ 100
  rcases aplicar_contornos_valores cfg (fun _ _ => 0) i j with h | h | h | h | h <;> rw [h]
  · norm_num
  · rw [ht1]; norm_num
  · rw [ht2]; norm_num
  · rw [ht3]; norm_num
  · rw [ht4]; norm_num

lemma pasoIter_bounds (cfg : ConfiguracionSimulacion)
    (ht1 : cfg.t_arriba = 100) (ht2 : cfg.t_abajo = 0)
    (ht3 : cfg.t_izquierda = 30) (ht4 : cfg.t_derecha = 30)
    (hr0 : 0 ≤ (DifusionCalor2D.init cfg).r) (hr1 : 4 * (DifusionCalor2D.init cfg).r ≤ 1)
    (k : ℕ) :
    ∀ i < cfg.n, ∀ j < cfg.n,
      0 ≤ (pasoIter (DifusionCalor2D.init cfg) k).u i j ∧
      (pasoIter (DifusionCalor2D.init cfg) k).u i j ≤ 100 := by
  induction k with
  | zero => intro i hi j hj; exact init_bounds cfg ht1 ht2 ht3 ht4 i j
  | succ k ih =>
    intro i hi j hj
    rw [pasoIter_u_succ]
    exact paso_grid_bounds cfg (DifusionCalor2D.init cfg).r
      (pasoIter (DifusionCalor2D.init cfg) k).u ht1 ht2 ht3 ht4 hr0 hr1 ih i j hi hj

lemma init_r_eq (cfg : ConfiguracionSimulacion)
    (ha : cfg.alpha ≠ 0) (hdx : cfg.dx ≠ 0) :
    (DifusionCalor2D.init cfg).r = cfg.factor_seguridad_cfl / 4 := by
  show cfg.alpha * cfg.calcular_dt_estable / cfg.dx ^ 2 = _
  unfold ConfiguracionSimulacion.calcular_dt_estable
  field_simp
  ring

lemma paso_grid_celda11 (cfg : ConfiguracionSimulacion) (r : ℚ) (u : Grid)
    (hn : 3 ≤ cfg.n) (hr0 : 0 ≤ r) (hr1 : 4 * r ≤ 1)
    (hpos : ∀ i < cfg.n, ∀ j < cfg.n, 0 ≤ u i j)
    (htop : u 0 1 = 100) :
    100 * r ≤ aplicar_contornos cfg (actualizar_interior cfg.n r u) 1 1 := by
  rw [aplicar_contornos_interior cfg _ 1 1 (by omega) (by omega) (by omega) (by omega)]
  unfold actualizar_interior
  rw [if_pos (⟨by omega, by omega, by omega, by omega⟩ :
    1 ≤ 1 ∧ 1 ≤ cfg.n - 2 ∧ 1 ≤ 1 ∧ 1 ≤ cfg.n - 2)]
  have hA := hpos 2 (by omega) 1 (by omega)
  have hC := hpos 1 (by omega) 2 (by omega)
  have hD := hpos 1 (by omega) 0 (by omega)
  have h0 := hpos 1 (by omega) 1 (by omega)
  rw [show (1:ℕ) + 1 = 2 from rfl, show (1:ℕ) - 1 = 0 from rfl, htop]
  nlinarith [mul_nonneg hr0 hA, mul_nonneg hr0 hC, mul_nonneg hr0 hD,
    mul_nonneg (by linarith : (0:ℚ) ≤ 1 - 4 * r) h0]

lemma pasoIter_top (cfg : ConfiguracionSimulacion) (hn : 3 ≤ cfg.n) (k : ℕ) :
    (pasoIter (DifusionCalor2D.init cfg) k).u 0 1 = cfg.t_arriba := by
  have h := contornos_pasoIter cfg k 0 (by omega) 1 (by omega)
  exact h.2.2.2 rfl (by omega) (by omega) (by omega)

lemma media_interior_pos (cfg : ConfiguracionSimulacion) (u : Grid)
    (hn : 3 ≤ cfg.n)
    (hpos : ∀ i < cfg.n, ∀ j < cfg.n, 0 ≤ u i j)
    (h11 : 0 < u 1 1) :
    0 < media_interior cfg u := by
  unfold media_interior
  apply div_pos
  · unfold suma_interior
    apply Finset.sum_pos'
    · intro i hi
      apply Finset.sum_nonneg
      intro j hj
      rw [Finset.mem_Icc] at hi hj
      exact hpos i (by omega) j (by omega)
    · refine ⟨1, Finset.mem_Icc.mpr ⟨le_refl 1, by omega⟩, ?_⟩
      apply Finset.sum_pos'
      · intro j hj
        rw [Finset.mem_Icc] at hj
        exact hpos 1 (by omega) j (by omega)
      · exact ⟨1, Finset.mem_Icc.mpr ⟨le_refl 1, by omega⟩, h11⟩
  · have hcount : 0 < (cfg.n - 2) * (cfg.n - 2) := by
      have : 1 ≤ cfg.n - 2 := by omega
      exact Nat.mul_pos this this
    exact_mod_cast hcount

/-- C4: with the default boundary temperatures (top 100, bottom 0, left 30,
right 30), any `N ≥ 3`, `α > 0`, `dx > 0` and safety factor in `(0,1]`
(hence `0 < r ≤ 1/4`), every cell of the grid stays within `[0, 100]` after
every number of steps, and after every number of steps `≥ 1` the mean of the
interior cells is strictly greater than its initial value 0. -/
theorem acotacion_y_media_interior (cfg : ConfiguracionSimulacion)
    (ht1 : cfg.t_arriba = 100) (ht2 : cfg.t_abajo = 0)
    (ht3 : cfg.t_izquierda = 30) (ht4 : cfg.t_derecha = 30)
    (hn : 3 ≤ cfg.n) (ha : 0 < cfg.alpha) (hdx : 0 < cfg.dx)
    (hs0 : 0 < cfg.factor_seguridad_cfl) (hs1 : cfg.factor_seguridad_cfl ≤ 1)
    (k : ℕ) :
    (∀ i < cfg.n, ∀ j < cfg.n,
      0 ≤ (pasoIter (DifusionCalor2D.init cfg) k).u i j ∧
      (pasoIter (DifusionCalor2D.init cfg) k).u i j ≤ 100) ∧
    (1 ≤ k → 0 < media_interior cfg (pasoIter (DifusionCalor2D.init cfg) k).u) := by
  have hre : (DifusionCalor2D.init cfg).r = cfg.factor_seguridad_cfl / 4 :=
    init_r_eq cfg (ne_of_gt ha) (ne_of_gt hdx)
  have hr0 : 0 ≤ (DifusionCalor2D.init cfg).r := by rw [hre]; positivity
  have hr1 : 4 * (DifusionCalor2D.init cfg).r ≤ 1 := by rw [hre]; linarith
  have hrpos : 0 < (DifusionCalor2D.init cfg).r := by rw [hre]; positivity
  refine ⟨pasoIter_bounds cfg ht1 ht2 ht3 ht4 hr0 hr1 k, ?_⟩
  intro hk
  obtain ⟨m, rfl⟩ : ∃ m, k = m + 1 := ⟨k - 1, by omega⟩
  have hpos : ∀ i < cfg.n, ∀ j < cfg.n, 0 ≤ (pasoIter (DifusionCalor2D.init cfg) m).u i j :=
    fun i hi j hj => (pasoIter_bounds cfg ht1 ht2 ht3 ht4 hr0 hr1 m i hi j hj).1
  have htop : (pasoIter (DifusionCalor2D.init cfg) m).u 0 1 = 100 := by
    rw [pasoIter_top cfg hn m, ht1]
  have h11 : 100 * (DifusionCalor2D.init cfg).r ≤
      (pasoIter (DifusionCalor2D.init cfg) (m + 1)).u 1 1 := by
    rw [pasoIter_u_succ]
    exact paso_grid_celda11 cfg (DifusionCalor2D.init cfg).r
      (pasoIter (DifusionCalor2D.init cfg) m).u hn hr0 hr1 hpos htop
  apply media_interior_pos cfg (pasoIter (DifusionCalor2D.init cfg) (m + 1)).u hn
    (fun i hi j hj => (pasoIter_bounds cfg ht1 ht2 ht3 ht4 hr0 hr1 (m + 1) i hi j hj).1)
  calc (0:ℚ) < 100 * (DifusionCalor2D.init cfg).r := by
        have : (0:ℚ) < 100 := by norm_num
        exact mul_pos this hrpos
    _ ≤ (pasoIter (DifusionCalor2D.init cfg) (m + 1)).u 1 1 := h11

theorem acotacion_y_media_interior_witness :
    (∀ i < cfg3.n, ∀ j < cfg3.n,
      0 ≤ (pasoIter (DifusionCalor2D.init cfg3) 1).u i j ∧
      (pasoIter (DifusionCalor2D.init cfg3) 1).u i j ≤ 100) ∧
    0 < media_interior cfg3 (pasoIter (DifusionCalor2D.init cfg3) 1).u := by
  have h := acotacion_y_media_interior cfg3 rfl rfl rfl rfl
    (by decide) (by decide) (by decide) (by decide) (by decide) 1
  exact ⟨h.1, h.2 le_rfl⟩
